import Mathlib

/-!
Verification of the response-mapping and CSV-projection logic of the
Python-CIMIS client library (`python_cimis/endpoints.py`,
`python_cimis/client.py`, `python_cimis/models.py`,
`python_cimis/exceptions.py`).

Python strings are modelled as `List Char` (Python compares and slices
strings by code point, which `List Char` reproduces exactly).  Parsed JSON
values — the values the Python code manipulates after `response.json()` —
are modelled by the inductive type `Json`; `Json.null` is Python `None`.
Operations that can raise an uncaught exception are modelled with `Option`
(`none` = the call raises).
-/

/-- Python strings (sequences of code points). -/
abbrev Str := List Char

/-- A parsed JSON value as held by the Python code after `response.json()`:
`null` is Python `None`, `str` a Python `str`, `arr` a Python `list`,
`obj` a Python `dict` (association list in insertion order; real Python
dicts have no duplicate keys). -/
inductive Json where
  | null : Json
  | str  : Str → Json
  | arr  : List Json → Json
  | obj  : List (Str × Json) → Json

mutual

/-- Python structural equality `==` on parsed JSON values. -/
def Json.beq : Json → Json → Bool
  | .null, .null => true
  | .str a, .str b => a == b
  | .arr as, .arr bs => Json.beqArr as bs
  | .obj as, .obj bs => Json.beqObj as bs
  | _, _ => false

/-- Elementwise `==` on Python lists of JSON values. -/
def Json.beqArr : List Json → List Json → Bool
  | [], [] => true
  | a :: as, b :: bs => Json.beq a b && Json.beqArr as bs
  | _, _ => false

/-- Entrywise `==` on Python dicts of JSON values (insertion order). -/
def Json.beqObj : List (Str × Json) → List (Str × Json) → Bool
  | [], [] => true
  | (k, v) :: as, (k2, v2) :: bs => k == k2 && Json.beq v v2 && Json.beqObj as bs
  | _, _ => false

end

mutual

theorem Json.beq_iff : ∀ (a b : Json), Json.beq a b = true ↔ a = b
  | .null, .null => by simp [Json.beq]
  | .null, .str _ => by simp [Json.beq]
  | .null, .arr _ => by simp [Json.beq]
  | .null, .obj _ => by simp [Json.beq]
  | .str _, .null => by simp [Json.beq]
  | .str a, .str b => by simp [Json.beq]
  | .str _, .arr _ => by simp [Json.beq]
  | .str _, .obj _ => by simp [Json.beq]
  | .arr _, .null => by simp [Json.beq]
  | .arr _, .str _ => by simp [Json.beq]
  | .arr as, .arr bs => by simp [Json.beq, Json.beqArr_iff as bs]
  | .arr _, .obj _ => by simp [Json.beq]
  | .obj _, .null => by simp [Json.beq]
  | .obj _, .str _ => by simp [Json.beq]
  | .obj _, .arr _ => by simp [Json.beq]
  | .obj as, .obj bs => by simp [Json.beq, Json.beqObj_iff as bs]

theorem Json.beqArr_iff : ∀ (as bs : List Json), Json.beqArr as bs = true ↔ as = bs
  | [], [] => by simp [Json.beqArr]
  | [], _ :: _ => by simp [Json.beqArr]
  | _ :: _, [] => by simp [Json.beqArr]
  | a :: as, b :: bs => by
      simp [Json.beqArr, Json.beq_iff a b, Json.beqArr_iff as bs]

theorem Json.beqObj_iff :
    ∀ (as bs : List (Str × Json)), Json.beqObj as bs = true ↔ as = bs
  | [], [] => by simp [Json.beqObj]
  | [], _ :: _ => by simp [Json.beqObj]
  | _ :: _, [] => by simp [Json.beqObj]
  | (k, v) :: as, (k2, v2) :: bs => by
      simp [Json.beqObj, Json.beq_iff v v2, Json.beqObj_iff as bs, Prod.ext_iff]

end

/-- Equality of parsed JSON values is decidable by `Json.beq` (Python `==`
on these values is structural equality). -/
instance : DecidableEq Json :=
  fun a b => decidable_of_iff (Json.beq a b = true) (Json.beq_iff a b)

/-- Python truthiness of a parsed JSON value: `None`, `''`, `[]` and
`\x7b\x7d` are falsy, everything else truthy. -/
def truthy : Json → Bool
  | .null => false
  | .str s => !s.isEmpty
  | .arr l => !l.isEmpty
  | .obj l => !l.isEmpty

/-- Python `a or b` on parsed JSON values. -/
def pyOr (a b : Json) : Json := if truthy a then a else b

/-- Lookup in a Python dict represented as an association list
(first match; real dicts have no duplicate keys). -/
def dictGet {α : Type} : List (Str × α) → Str → Option α
  | [], _ => none
  | (k, v) :: tl, key => if k = key then some v else dictGet tl key

/-- Python `d.get(k)`: the stored value when the key is present, `None`
otherwise.  A stored JSON `null` is already Python `None`, so presence of a
key with a null value is indistinguishable from absence, as in Python. -/
def pyGet (d : List (Str × Json)) (k : Str) : Json :=
  (dictGet d k).getD Json.null

/-- Python `d.get(k, default)`: the stored value when the key is present
(even when it is `None`), the default otherwise. -/
def pyGetD (d : List (Str × Json)) (k : Str) (dflt : Json) : Json :=
  (dictGet d k).getD dflt

/-- Python `d[k] = v` on a dict: replaces the value in place when the key
exists (keeping its position, as Python dicts do), appends otherwise. -/
def dictSet {α : Type} : List (Str × α) → Str → α → List (Str × α)
  | [], k, v => [(k, v)]
  | (k1, v1) :: tl, k, v =>
      if k1 = k then (k, v) :: tl else (k1, v1) :: dictSet tl k v

/-- Does the dict have the key (`k in d` for a Python dict)? -/
def hasKey {α : Type} (d : List (Str × α)) (k : Str) : Bool :=
  (dictGet d k).isSome

/-- Join a list of strings with a separator (helper for `pyRepr`). -/
def joinSep (sep : Str) : List Str → Str
  | [] => []
  | [s] => s
  | s :: tl => s ++ sep ++ joinSep sep tl

mutual

/-- Python `repr` of a parsed JSON value (used by `str` on containers). -/
def pyRepr : Json → Str
  | .null => "None".data
  | .str s => '\x27' :: s ++ ['\x27']
  | .arr l => '[' :: joinSep (", ".data) (pyReprArr l) ++ [']']
  | .obj l => '\x7b' :: joinSep (", ".data) (pyReprObj l) ++ ['\x7d']

/-- `repr` of each element of a Python list. -/
def pyReprArr : List Json → List Str
  | [] => []
  | a :: tl => pyRepr a :: pyReprArr tl

/-- `repr` of each `key: value` entry of a Python dict. -/
def pyReprObj : List (Str × Json) → List Str
  | [] => []
  | (k, v) :: tl => ('\x27' :: k ++ '\x27' :: ": ".data ++ pyRepr v) :: pyReprObj tl

end

/-- Python `str()` of a parsed JSON value. -/
def pyStr : Json → Str
  | .null => "None".data
  | .str s => s
  | .arr l => pyRepr (.arr l)
  | .obj l => pyRepr (.obj l)

/-- Is the character an ASCII decimal digit? -/
def isDigitCh (c : Char) : Bool := 48 ≤ c.toNat && c.toNat ≤ 57

/-- Is the character ASCII whitespace (as stripped by Python `int`)? -/
def isSpaceCh (c : Char) : Bool :=
  c = ' ' || c = '\t' || c = '\n' || c = '\x0d' || c = '\x0b' || c = '\x0c'

/-- Numeric value of a nonempty all-digit string, `none` otherwise. -/
def digitsVal : Str → Option Nat
  | [] => none
  | l => go 0 l
where
  go (acc : Nat) : Str → Option Nat
    | [] => some acc
    | c :: cs => if isDigitCh c then go (acc * 10 + (c.toNat - 48)) cs else none

/-- Python `int(s)` on a string: optional surrounding whitespace, optional
sign, then decimal digits; `none` when the call raises `ValueError`. -/
def pyInt (s : Str) : Option Int :=
  let t := (s.dropWhile isSpaceCh).reverse.dropWhile isSpaceCh |>.reverse
  match t with
  | '-' :: rest => (digitsVal rest).map (fun n => -(n : Int))
  | '+' :: rest => (digitsVal rest).map (fun n => (n : Int))
  | _ => (digitsVal t).map (fun n => (n : Int))

/-- Python `s.zfill(width)`: left-pad with `0` to the width, keeping a
leading sign in front of the padding. -/
def zfill (width : Nat) (s : Str) : Str :=
  match s with
  | c :: rest =>
      if c = '-' || c = '+' then
        if s.length < width then c :: List.replicate (width - s.length) '0' ++ rest
        else s
      else if s.length < width then List.replicate (width - s.length) '0' ++ s
      else s
  | [] => List.replicate width '0'

/-- Strict lexicographic comparison of Python strings (by code point),
Python `s < t`. -/
def lexLt : Str → Str → Bool
  | [], [] => false
  | [], _ :: _ => true
  | _ :: _, [] => false
  | a :: as, b :: bs =>
      if a.toNat < b.toNat then true
      else if b.toNat < a.toNat then false
      else lexLt as bs

/-- Python `s <= t` on strings. -/
def lexLe (a b : Str) : Bool := !lexLt b a

/-- Python `s.startswith(p)`. -/
def startsWithStr : Str → Str → Bool
  | _, [] => true
  | [], _ :: _ => false
  | c :: cs, p :: ps => c = p && startsWithStr cs ps

/-- Split a string at every occurrence of a separator character. -/
def splitOnCh (sep : Char) : Str → List Str
  | [] => [[]]
  | c :: cs =>
      match splitOnCh sep cs with
      | [] => [[c]]
      | s :: ss => if c = sep then [] :: s :: ss else (c :: s) :: ss

/-- The two low-order decimal digits, zero-padded (helper for `isoformat`). -/
def pad2 (n : Nat) : Str := [Char.ofNat (48 + n / 10 % 10), Char.ofNat (48 + n % 10)]

/-- Four decimal digits, zero-padded (`isoformat` year field). -/
def pad4 (n : Nat) : Str :=
  [Char.ofNat (48 + n / 1000 % 10), Char.ofNat (48 + n / 100 % 10),
   Char.ofNat (48 + n / 10 % 10), Char.ofNat (48 + n % 10)]

/-- Day count of a month as `datetime` validates it. -/
def daysInMonth (y m : Nat) : Nat :=
  if m = 2 then
    if y % 4 = 0 && (y % 100 ≠ 0 || y % 400 = 0) then 29 else 28
  else if m = 4 || m = 6 || m = 9 || m = 11 then 30
  else 31

/-- `datetime.strptime(s, "%Y-%m-%d")`: three dash-separated all-digit
fields (year up to four digits, month and day up to two), forming a valid
calendar date of year 1..9999; `none` when the call raises `ValueError`. -/
def parseDate (s : Str) : Option (Nat × Nat × Nat) :=
  match splitOnCh '-' s with
  | [ys, ms, ds] =>
      match digitsVal ys, digitsVal ms, digitsVal ds with
      | some y, some m, some d =>
          if ys.length ≤ 4 && ms.length ≤ 2 && ds.length ≤ 2 &&
             1 ≤ y && y ≤ 9999 && 1 ≤ m && m ≤ 12 && 1 ≤ d && d ≤ daysInMonth y m
          then some (y, m, d) else none
      | _, _, _ => none
  | _ => none

/-- `datetime(y, m, d).isoformat()` (midnight). -/
def isoMidnight : Nat × Nat × Nat → Str
  | (y, m, d) => pad4 y ++ '-' :: pad2 m ++ '-' :: pad2 d ++ "T00:00:00".data

/-- `datetime(y, m, d, hour, minute).isoformat()`. -/
def isoWithTime (ymd : Nat × Nat × Nat) (hour minute : Nat) : Str :=
  match ymd with
  | (y, m, d) =>
      pad4 y ++ '-' :: pad2 m ++ '-' :: pad2 d ++ 'T' :: pad2 hour ++ ':' :: pad2 minute ++ ":00".data

/-- `mapM` over `Option` written by structural recursion: Python loops that
can raise stop at the first failing element. -/
def optMap {α β : Type} (f : α → Option β) : List α → Option (List β)
  | [] => some []
  | a :: tl =>
      match f a with
      | none => none
      | some b => (optMap f tl).map (fun bs => b :: bs)

/-! ## Data model (`python_cimis/models.py`) -/

/-- `DataValue` (models.py): a single data value with quality-control
information.  Fields hold the parsed JSON values the constructor receives. -/
structure DataValue where
  value : Json
  qc : Json
  unit : Json
  deriving DecidableEq

/-- `WeatherRecord` (models.py): one weather data record.  `station` and
`hour` are `Optional` in the source; absence is Python `None`, i.e.
`Json.null` here. -/
structure WeatherRecord where
  date : Json
  julian : Json
  station : Json
  standard : Json
  zip_codes : Json
  scope : Json
  hour : Json
  data_values : List (Str × DataValue)
  deriving DecidableEq

/-- `WeatherProvider` (models.py). -/
structure WeatherProvider where
  name : Json
  type : Json
  owner : Json
  records : List WeatherRecord
  deriving DecidableEq

/-- `WeatherData` (models.py): root container of a data response. -/
structure WeatherData where
  providers : List WeatherProvider
  deriving DecidableEq

/-- `WeatherData.get_all_records` (models.py): concatenate every
provider's record list, in provider order. -/
def WeatherData.get_all_records (wd : WeatherData) : List WeatherRecord :=
  wd.providers.flatMap (fun p => p.records)

/-- Python `==` on `DataValue` (dataclass equality: fieldwise `==`). -/
def DataValue.beq (a b : DataValue) : Bool :=
  Json.beq a.value b.value && Json.beq a.qc b.qc && Json.beq a.unit b.unit

/-- Entrywise equality of two `data_values` dicts in insertion order.
(Python dict `==` ignores insertion order; the dicts compared by the
client are built by the same loop, where the orders coincide.) -/
def dvDictBeq : List (Str × DataValue) → List (Str × DataValue) → Bool
  | [], [] => true
  | (k, v) :: as, (k2, v2) :: bs => k == k2 && DataValue.beq v v2 && dvDictBeq as bs
  | _, _ => false

/-- Python `==` on `WeatherRecord` (dataclass equality: fieldwise `==`). -/
def WeatherRecord.beq (a b : WeatherRecord) : Bool :=
  Json.beq a.date b.date && Json.beq a.julian b.julian &&
  Json.beq a.station b.station && Json.beq a.standard b.standard &&
  Json.beq a.zip_codes b.zip_codes && Json.beq a.scope b.scope &&
  Json.beq a.hour b.hour && dvDictBeq a.data_values b.data_values

/-- Python `record in records` on a list of `WeatherRecord`s (membership
by `==`; identity membership implies it). -/
def recIn (r : WeatherRecord) (l : List WeatherRecord) : Bool :=
  l.any (fun x => WeatherRecord.beq x r)

/-! ## Response Mapper
(`CimisEndpoints.parse_data_response`, endpoints.py lines 262-304; the
byte-identical `CimisClient._parse_data_response`, client.py lines
142-181, is modelled by the same definitions.) -/

/-- The `DataValue(value=value.get('Value'), qc=value.get('Qc', ' '), unit=value.get('Unit', ''))`
construction of `parse_data_response` for one data-item dict. -/
def mkDataValue (o : List (Str × Json)) : DataValue :=
  ⟨pyGet o ("Value".data),
   pyGetD o ("Qc".data) (Json.str (" ".data)),
   pyGetD o ("Unit".data) (Json.str ("".data))⟩

/-- One iteration of the `# Parse data values` loop: when the value is a
dict containing a `Value` key, assign `record.data_values[key] = DataValue(...)`. -/
def dvStep (acc : List (Str × DataValue)) (kv : Str × Json) : List (Str × DataValue) :=
  match kv.2 with
  | Json.obj o => if hasKey o ("Value".data) then dictSet acc kv.1 (mkDataValue o) else acc
  | _ => acc

/-- The `# Parse data values` loop of `parse_data_response` over all
`key, value` items of the record object. -/
def buildDataValues (rd : List (Str × Json)) : List (Str × DataValue) :=
  rd.foldl dvStep []

/-- The `WeatherRecord(...)` construction of `parse_data_response` applied
to one record dict, followed by the data-value loop. -/
def parseRecord (rd : List (Str × Json)) : WeatherRecord :=
  { date := pyGetD rd ("Date".data) (Json.str ("".data))
    julian := pyGetD rd ("Julian".data) (Json.str ("".data))
    station := pyGet rd ("Station".data)
    standard := pyGetD rd ("Standard".data) (Json.str ("english".data))
    zip_codes := pyGetD rd ("ZipCodes".data) (Json.str ("".data))
    scope := pyGetD rd ("Scope".data) (Json.str ("daily".data))
    hour := pyGet rd ("Hour".data)
    data_values := buildDataValues rd }

/-- One element of the `Records` list: `record_data.get(...)` requires a
dict; on any other value the Python loop raises (`none`). -/
def parseRecordJ : Json → Option WeatherRecord
  | Json.obj rd => some (parseRecord rd)
  | _ => none

/-- One element of the `Providers` list: reads `Name`/`Type`/`Owner` with
empty-string defaults and iterates `provider_data.get('Records', [])`.
Iterating a non-list `Records` value raises unless it is an empty string
or empty dict (whose iteration yields nothing before any `.get` call). -/
def parseProviderJ : Json → Option WeatherProvider
  | Json.obj pd =>
      let mkProv := fun recs => WeatherProvider.mk
        (pyGetD pd ("Name".data) (Json.str ("".data)))
        (pyGetD pd ("Type".data) (Json.str ("".data)))
        (pyGetD pd ("Owner".data) (Json.str ("".data)))
        recs
      match dictGet pd ("Records".data) with
      | none => some (mkProv [])
      | some (Json.arr rs) => (optMap parseRecordJ rs).map mkProv
      | some (Json.str s) => if s.isEmpty then some (mkProv []) else none
      | some (Json.obj o) => if o.isEmpty then some (mkProv []) else none
      | some Json.null => none
  | _ => none

/-- `parse_data_response` (endpoints.py lines 262-304).  The input is the
parsed top-level JSON dict.  When the `Data` key is missing, or the `Data`
value lacks a `Providers` key (`'Data' not in data or 'Providers' not in data['Data']`),
the empty `WeatherData` is returned.  `none` models an uncaught Python
exception: `'Providers' in x` raises on `None`, and indexing
`data['Data']['Providers']` raises when `Data` is a string or list that
passed the `in` test, as does iterating a non-list `Providers` value. -/
def parse_data_response (data : List (Str × Json)) : Option WeatherData :=
  match dictGet data ("Data".data) with
  | none => some ⟨[]⟩
  | some (Json.obj o) =>
      match dictGet o ("Providers".data) with
      | none => some ⟨[]⟩
      | some (Json.arr ps) => (optMap parseProviderJ ps).map WeatherData.mk
      | some _ => none
  | some (Json.str s) =>
      if ("Providers".data) <:+: s then none else some ⟨[]⟩
  | some (Json.arr l) =>
      if l.any (fun j => Json.beq j (Json.str ("Providers".data))) then none
      else some ⟨[]⟩
  | some Json.null => none

/-! ## CSV Projector
(`CimisClient._export_records_to_csv`, client.py lines 541-710, and
`CimisClient.export_to_csv`, client.py lines 477-539).  The records fed to
the projector by the client are `WeatherRecord` objects produced by the
Mapper, so the `hasattr(record, ...)` branches for legacy plain dicts are
never taken and only the `WeatherRecord` branches are modelled.  The model
produces the header and the row dicts handed to `csv.DictWriter`; the file
write itself is environment I/O. -/

/-- The `scope_type` argument of `_export_records_to_csv`. -/
inductive ScopeType where
  | daily : ScopeType
  | hourly : ScopeType
  | mixed : ScopeType
  deriving DecidableEq

/-- The scope filter on collected data items (client.py lines 556-567):
`daily` keeps items starting with `Day` or with neither `Day` nor `Hly`;
`hourly` keeps items starting with `Hly` or with neither; `mixed` keeps
all. -/
def itemKeep (scope : ScopeType) (item : Str) : Bool :=
  match scope with
  | .daily =>
      startsWithStr item ("Day".data) ||
        !(startsWithStr item ("Day".data) || startsWithStr item ("Hly".data))
  | .hourly =>
      startsWithStr item ("Hly".data) ||
        !(startsWithStr item ("Day".data) || startsWithStr item ("Hly".data))
  | .mixed => true

/-- The `all_data_items` set (client.py lines 545-554): the union of the
`data_values` key sets of the given records.  A Python `set` is modelled
as a duplicate-free list; the order is irrelevant because the set is only
consumed through `sorted`. -/
def allDataItems (records : List WeatherRecord) : List Str :=
  dedupStr (records.flatMap (fun r => r.data_values.map Prod.fst))
where
  dedupStr : List Str → List Str
    | [] => []
    | s :: tl =>
        let r := dedupStr tl
        if r.contains s then r else s :: r

/-- `filtered_data_items` (client.py lines 556-567). -/
def filteredDataItems (records : List WeatherRecord) (scope : ScopeType) : List Str :=
  (allDataItems records).filter (itemKeep scope)

/-- `sorted_data_items = sorted(filtered_data_items)` (client.py line 570):
ascending lexicographic order by code point. -/
def sortedDataItems (records : List WeatherRecord) (scope : ScopeType) : List Str :=
  List.insertionSort (fun a b => lexLe a b = true) (filteredDataItems records scope)

/-- The `Hly`-stripping column normalization (client.py lines 586-589). -/
def cleanItemName (item : Str) : Str :=
  if startsWithStr item ("Hly".data) then item.drop 3 else item

/-- The three columns emitted for one data item (client.py lines 591-595). -/
def itemColumnTriple (item : Str) : List Str :=
  [cleanItemName item ++ "_Value".data,
   cleanItemName item ++ "_QC".data,
   cleanItemName item ++ "_Unit".data]

/-- `data_columns` (client.py lines 584-595). -/
def dataColumns (records : List WeatherRecord) (scope : ScopeType) : List Str :=
  (sortedDataItems records scope).flatMap itemColumnTriple

/-- `base_columns` (client.py lines 573-581): fixed base columns, plus
`Hour` and `DateTime_Full` in `hourly` and `mixed` modes. -/
def baseColumns (scope : ScopeType) : List Str :=
  ["Provider_Name".data, "Provider_Type".data, "Date".data, "Julian".data,
   "Station".data, "Standard".data, "ZipCodes".data, "Scope".data,
   "DateTime_Object".data] ++
  (if scope = ScopeType.hourly || scope = ScopeType.mixed then
    ["Hour".data, "DateTime_Full".data] else [])

/-- `all_columns` (client.py line 597). -/
def allColumns (records : List WeatherRecord) (scope : ScopeType) : List Str :=
  baseColumns scope ++ dataColumns records scope

/-- The `DateTime_Object` cell (client.py lines 646-655): parse the date
as `%Y-%m-%d` and emit `isoformat()`; on a `ValueError` fall back to
`record_date or ''`; an empty/falsy date gives `''`.  `none` models the
uncaught `TypeError` that `strptime` raises on a truthy non-string. -/
def dateTimeObjectCell (record_date : Json) : Option Json :=
  if truthy record_date then
    match record_date with
    | Json.str s =>
        match parseDate s with
        | some ymd => some (Json.str (isoMidnight ymd))
        | none => some (pyOr record_date (Json.str ("".data)))
    | _ => none
  else some (Json.str ("".data))

/-- The `DateTime_Full` cell (client.py lines 662-676): when both date and
hour are truthy, parse the date, zero-fill `str(hour)` to width 4, read
hour and minute with `int`, and emit the combined `isoformat()`; any
`ValueError`/`TypeError` on the way (non-string date, non-numeric or
out-of-range hour) is caught and produces the fallback string
`f"\x7brecord_date or un\x7d \x7brecord_hour or un\x7d"`; when date or
hour is falsy the cell is the empty string. -/
def dateTimeFullCell (record_date record_hour : Json) : Json :=
  let fallback := Json.str
    (pyStr (pyOr record_date (Json.str ("".data))) ++ " ".data ++
     pyStr (pyOr record_hour (Json.str ("".data))))
  if truthy record_date && truthy record_hour then
    match record_date with
    | Json.str s =>
        match parseDate s with
        | some ymd =>
            let hour_str := zfill 4 (pyStr record_hour)
            match pyInt (hour_str.take 2) with
            | none => fallback
            | some h =>
                match (if hour_str.length > 2 then pyInt (hour_str.drop 2) else some 0) with
                | none => fallback
                | some m =>
                    if 0 ≤ h && h ≤ 23 && 0 ≤ m && m ≤ 59 then
                      Json.str (isoWithTime ymd h.toNat m.toNat)
                    else fallback
        | none => fallback
    | _ => fallback
  else Json.str ("".data)

/-- The three `row[...]` assignments made for one sorted data item
(client.py lines 679-695): the stored `DataValue`'s fields when the record
has the item, empty strings otherwise. -/
def itemAssigns (r : WeatherRecord) (items : List Str) : List (Str × Json) :=
  items.flatMap (fun item =>
    let clean := cleanItemName item
    match dictGet r.data_values item with
    | some dv =>
        [(clean ++ "_Value".data, pyOr dv.value (Json.str ("".data))),
         (clean ++ "_QC".data, dv.qc),
         (clean ++ "_Unit".data, dv.unit)]
    | none =>
        [(clean ++ "_Value".data, Json.str ("".data)),
         (clean ++ "_QC".data, Json.str ("".data)),
         (clean ++ "_Unit".data, Json.str ("".data))])

/-- Apply a sequence of `row[key] = value` dict assignments in order. -/
def applyAssigns (row : List (Str × Json)) (ps : List (Str × Json)) : List (Str × Json) :=
  ps.foldl (fun d kv => dictSet d kv.1 kv.2) row

/-- The row dict built for one record (client.py lines 613-708): the base
dict literal, the `DateTime_Object` assignment, the `Hour` and
`DateTime_Full` assignments when those columns exist, then the data-item
assignments in sorted-item order.  `none` models the uncaught `TypeError`
of the `DateTime_Object` computation. -/
def buildRow (pname ptype : Json) (r : WeatherRecord) (allCols : List Str)
    (items : List Str) : Option (List (Str × Json)) :=
  let record_hour := pyOr r.hour (Json.str ("".data))
  let base : List (Str × Json) :=
    [("Provider_Name".data, pname), ("Provider_Type".data, ptype),
     ("Date".data, r.date), ("Julian".data, r.julian),
     ("Station".data, pyOr r.station (Json.str ("".data))),
     ("Standard".data, r.standard), ("ZipCodes".data, r.zip_codes),
     ("Scope".data, r.scope)]
  match dateTimeObjectCell r.date with
  | none => none
  | some dto =>
      let row1 := dictSet base ("DateTime_Object".data) dto
      let row2 :=
        if allCols.contains ("Hour".data) then
          let rowH := dictSet row1 ("Hour".data) record_hour
          if allCols.contains ("DateTime_Full".data) then
            dictSet rowH ("DateTime_Full".data) (dateTimeFullCell r.date record_hour)
          else rowH
        else row1
      some (applyAssigns row2 (itemAssigns r items))

/-- The `(provider, record)` pairs whose rows are written (client.py lines
607-611): providers in `WeatherData` order, records in provider order,
keeping records that are members (`in`) of the included list. -/
def exportIncluded (wd : WeatherData) (records : List WeatherRecord) :
    List (WeatherProvider × WeatherRecord) :=
  wd.providers.flatMap (fun p =>
    (p.records.filter (fun rec => recIn rec records)).map (fun rec => (p, rec)))

/-- The content of one produced CSV file: the header (first row) and one
row dict per emitted record, in emission order. -/
structure CsvOut where
  header : List Str
  rows : List (List (Str × Json))
  deriving DecidableEq

/-- `_export_records_to_csv` (client.py lines 541-710) up to the file
write: column discovery, header and row construction.  `none` models an
uncaught exception while formatting a row. -/
def exportRecordsToCsv (wd : WeatherData) (records : List WeatherRecord)
    (scope : ScopeType) : Option CsvOut :=
  let items := sortedDataItems records scope
  let cols := allColumns records scope
  (optMap (fun pr => buildRow pr.1.name pr.1.type pr.2 cols items)
      (exportIncluded wd records)).map (fun rows => CsvOut.mk cols rows)

instance {ε α : Type} [DecidableEq ε] [DecidableEq α] : DecidableEq (Except ε α)
  | .ok a, .ok b =>
      if h : a = b then .isTrue (by rw [h]) else .isFalse (by simp [h])
  | .ok _, .error _ => .isFalse (by simp)
  | .error _, .ok _ => .isFalse (by simp)
  | .error a, .error b =>
      if h : a = b then .isTrue (by rw [h]) else .isFalse (by simp [h])

/-- The error taxonomy of an export: `noData` is the `CimisDataError`
raised for an empty record set (exceptions.py lines 25-27), `ioFailure`
the propagated file-system `OSError`, `rowFailure` an uncaught exception
while formatting a row — distinct exception classes in the source. -/
inductive ExportErr where
  | noData : ExportErr
  | ioFailure : ExportErr
  | rowFailure : ExportErr
  deriving DecidableEq

/-- `export_to_csv` (client.py lines 477-539) up to the file writes: raise
`CimisDataError` when there are no records at all; with
`separate_daily_hourly` split records by scope string and produce one file
per nonempty scope class (two files when both are nonempty); fall through
to a single `mixed` file otherwise. -/
def export_to_csv (wd : WeatherData) (separate_daily_hourly : Bool) :
    Except ExportErr (List CsvOut) :=
  let all_records := wd.get_all_records
  if all_records.isEmpty then Except.error ExportErr.noData
  else
    let mixedOut :=
      match exportRecordsToCsv wd all_records ScopeType.mixed with
      | none => Except.error ExportErr.rowFailure
      | some out => Except.ok [out]
    if separate_daily_hourly then
      let daily_records := all_records.filter
        (fun r => Json.beq r.scope (Json.str ("daily".data)))
      let hourly_records := all_records.filter
        (fun r => Json.beq r.scope (Json.str ("hourly".data)))
      if !daily_records.isEmpty && !hourly_records.isEmpty then
        match exportRecordsToCsv wd daily_records ScopeType.daily,
              exportRecordsToCsv wd hourly_records ScopeType.hourly with
        | some d, some h => Except.ok [d, h]
        | _, _ => Except.error ExportErr.rowFailure
      else if !daily_records.isEmpty then
        match exportRecordsToCsv wd daily_records ScopeType.daily with
        | none => Except.error ExportErr.rowFailure
        | some out => Except.ok [out]
      else if !hourly_records.isEmpty then
        match exportRecordsToCsv wd hourly_records ScopeType.hourly with
        | none => Except.error ExportErr.rowFailure
        | some out => Except.ok [out]
      else mixedOut
    else mixedOut

/-! ## Dictionary lemmas -/

theorem dictGet_dictSet_self {α : Type} (d : List (Str × α)) (k : Str) (v : α) :
    dictGet (dictSet d k v) k = some v := by
  induction d with
  | nil => simp [dictSet, dictGet]
  | cons hd tl ih =>
      obtain ⟨k1, v1⟩ := hd
      by_cases h : k1 = k
      · simp [dictSet, h, dictGet]
      · simp [dictSet, h, dictGet, ih]

theorem dictGet_dictSet_ne {α : Type} (d : List (Str × α)) (k k2 : Str) (v : α)
    (h : k ≠ k2) : dictGet (dictSet d k v) k2 = dictGet d k2 := by
  induction d with
  | nil => simp [dictSet, dictGet, h]
  | cons hd tl ih =>
      obtain ⟨k1, v1⟩ := hd
      by_cases h1 : k1 = k
      · subst h1
        simp [dictSet, dictGet, h]
      · simp [dictSet, h1, dictGet, ih]

theorem dictGet_applyAssigns_of_ne (d : List (Str × Json)) (ps : List (Str × Json))
    (k : Str) (h : ∀ kv ∈ ps, kv.1 ≠ k) :
    dictGet (applyAssigns d ps) k = dictGet d k := by
  induction ps generalizing d with
  | nil => simp [applyAssigns]
  | cons hd tl ih =>
      have hhd : hd.1 ≠ k := h hd (by simp)
      have htl : ∀ kv ∈ tl, kv.1 ≠ k := fun kv hkv => h kv (by simp [hkv])
      show dictGet (applyAssigns (dictSet d hd.1 hd.2) tl) k = dictGet d k
      rw [ih _ htl, dictGet_dictSet_ne _ _ _ _ hhd]

/-! ## optMap lemmas -/

theorem optMap_length {α β : Type} (f : α → Option β) (l : List α) (bs : List β)
    (h : optMap f l = some bs) : bs.length = l.length := by
  induction l generalizing bs with
  | nil => simp [optMap] at h; simp [← h]
  | cons a tl ih =>
      simp only [optMap] at h
      cases hf : f a with
      | none => rw [hf] at h; exact absurd h (by simp)
      | some b =>
          rw [hf] at h
          cases ht : optMap f tl with
          | none => rw [ht] at h; exact absurd h (by simp)
          | some cs =>
              rw [ht] at h
              simp at h
              subst h
              simp [ih cs ht]

theorem optMap_isSome {α β : Type} (f : α → Option β) (l : List α)
    (h : ∀ a ∈ l, (f a).isSome) : (optMap f l).isSome := by
  induction l with
  | nil => simp [optMap]
  | cons a tl ih =>
      simp only [optMap]
      cases hf : f a with
      | none =>
          have := h a (by simp)
          rw [hf] at this
          simp at this
      | some b =>
          have := ih (fun x hx => h x (by simp [hx]))
          cases ht : optMap f tl with
          | none => rw [ht] at this; simp at this
          | some cs => simp

/-! ## Order lemmas for the string comparison used by `sorted` -/

theorem lexLt_irrefl : ∀ a : Str, lexLt a a = false
  | [] => rfl
  | c :: tl => by simp [lexLt, lexLt_irrefl tl]

theorem lexLt_trans : ∀ a b c : Str, lexLt a b = true → lexLt b c = true →
    lexLt a c = true
  | [], [], _, h, _ => by simp [lexLt] at h
  | [], _ :: _, [], _, h => by simp [lexLt] at h
  | [], _ :: _, _ :: _, _, _ => by simp [lexLt]
  | _ :: _, [], _, h, _ => by simp [lexLt] at h
  | _ :: _, _ :: _, [], _, h => by simp [lexLt] at h
  | a :: as, b :: bs, c :: cs, h1, h2 => by
      simp only [lexLt] at h1 h2 ⊢
      by_cases hab : a.toNat < b.toNat
      · by_cases hbc : b.toNat < c.toNat
        · simp [Nat.lt_trans hab hbc]
        · by_cases hcb : c.toNat < b.toNat
          · simp [hbc, hcb] at h2
          · have heq : b.toNat = c.toNat :=
              Nat.le_antisymm (Nat.le_of_not_lt hcb) (Nat.le_of_not_lt hbc)
            simp [heq ▸ hab]
      · by_cases hba : b.toNat < a.toNat
        · simp [hab, hba] at h1
        · have heq : a.toNat = b.toNat :=
            Nat.le_antisymm (Nat.le_of_not_lt hba) (Nat.le_of_not_lt hab)
          simp only [if_neg hab, if_neg hba] at h1
          by_cases hbc : b.toNat < c.toNat
          · simp [heq ▸ hbc]
          · by_cases hcb : c.toNat < b.toNat
            · simp [hbc, hcb] at h2
            · have heq2 : b.toNat = c.toNat :=
                Nat.le_antisymm (Nat.le_of_not_lt hcb) (Nat.le_of_not_lt hbc)
              simp only [if_neg hbc, if_neg hcb] at h2
              have hac : a.toNat = c.toNat := heq.trans heq2
              simp [hac, Nat.lt_irrefl, lexLt_trans as bs cs h1 h2]

theorem lexLt_total : ∀ a b : Str, lexLt a b = true ∨ lexLt b a = true ∨ a = b
  | [], [] => by simp
  | [], _ :: _ => by simp [lexLt]
  | _ :: _, [] => by simp [lexLt]
  | a :: as, b :: bs => by
      rcases Nat.lt_trichotomy a.toNat b.toNat with h | h | h
      · exact Or.inl (by simp [lexLt, h])
      · have hab : a = b := Char.ext (UInt32.ext h)
        subst hab
        rcases lexLt_total as bs with h2 | h2 | h2
        · exact Or.inl (by simp [lexLt, Nat.lt_irrefl, h2])
        · exact Or.inr (Or.inl (by simp [lexLt, Nat.lt_irrefl, h2]))
        · exact Or.inr (Or.inr (by simp [h2]))
      · exact Or.inr (Or.inl (by simp [lexLt, h, Nat.lt_asymm h]))

instance : IsTotal Str (fun a b => lexLe a b = true) where
  total := by
    intro a b
    simp only [lexLe, Bool.not_eq_true']
    rcases lexLt_total a b with h | h | h
    · left
      cases hba : lexLt b a
      · rfl
      · exact absurd (lexLt_trans _ _ _ h hba) (by simp [lexLt_irrefl])
    · right
      cases hab : lexLt a b
      · rfl
      · exact absurd (lexLt_trans _ _ _ h hab) (by simp [lexLt_irrefl])
    · subst h
      simp [lexLt_irrefl]

instance : IsTrans Str (fun a b => lexLe a b = true) where
  trans := by
    intro a b c hab hbc
    simp only [lexLe, Bool.not_eq_true'] at hab hbc ⊢
    cases hca : lexLt c a
    · rfl
    · rcases lexLt_total a b with h | h | h
      · exact absurd (lexLt_trans _ _ _ hca h) (by simp [hbc])
      · simp [h] at hab
      · subst h
        simp [hca] at hbc

/-! ## Structural equality lemmas for records -/

theorem dataValueBeq_iff (a b : DataValue) : DataValue.beq a b = true ↔ a = b := by
  obtain ⟨v1, q1, u1⟩ := a
  obtain ⟨v2, q2, u2⟩ := b
  simp [DataValue.beq, Json.beq_iff, and_assoc]

theorem dvDictBeq_iff : ∀ (as bs : List (Str × DataValue)),
    dvDictBeq as bs = true ↔ as = bs
  | [], [] => by simp [dvDictBeq]
  | [], _ :: _ => by simp [dvDictBeq]
  | _ :: _, [] => by simp [dvDictBeq]
  | (k, v) :: as, (k2, v2) :: bs => by
      simp [dvDictBeq, dataValueBeq_iff v v2, dvDictBeq_iff as bs, Prod.ext_iff]

theorem weatherRecordBeq_iff (a b : WeatherRecord) :
    WeatherRecord.beq a b = true ↔ a = b := by
  obtain ⟨d1, j1, s1, t1, z1, c1, h1, v1⟩ := a
  obtain ⟨d2, j2, s2, t2, z2, c2, h2, v2⟩ := b
  simp [WeatherRecord.beq, Json.beq_iff, dvDictBeq_iff, and_assoc]

theorem recIn_iff (r : WeatherRecord) (l : List WeatherRecord) :
    recIn r l = true ↔ r ∈ l := by
  simp only [recIn, List.any_eq_true]
  constructor
  · rintro ⟨x, hx, hbeq⟩
    rw [weatherRecordBeq_iff] at hbeq
    exact hbeq ▸ hx
  · intro h
    exact ⟨r, h, (weatherRecordBeq_iff r r).mpr rfl⟩

/-! ## Row-construction lemmas -/

/-- A record date on which the `DateTime_Object` computation cannot raise:
any string, or any falsy value. -/
def dateOk (d : Json) : Bool :=
  match d with
  | Json.str _ => true
  | other => !truthy other

theorem dateTimeObjectCell_isSome (d : Json) (h : dateOk d = true) :
    (dateTimeObjectCell d).isSome := by
  unfold dateTimeObjectCell
  cases d with
  | str s => cases hp : parseDate s <;> simp [hp, apply_ite Option.isSome]
  | null => simp [truthy]
  | arr l =>
      simp [dateOk, truthy] at h
      simp [truthy, h]
  | obj l =>
      simp [dateOk, truthy] at h
      simp [truthy, h]

theorem buildRow_isSome (pname ptype : Json) (r : WeatherRecord)
    (allCols : List Str) (items : List Str) (h : dateOk r.date = true) :
    (buildRow pname ptype r allCols items).isSome := by
  unfold buildRow
  have := dateTimeObjectCell_isSome r.date h
  cases hc : dateTimeObjectCell r.date with
  | none => rw [hc] at this; simp at this
  | some dto => simp

/-! ## Column-name disjointness lemmas -/

theorem append_suffix_ne (c s t : Str) (hs : s ≠ [])
    (h : s.getLast? ≠ t.getLast?) : c ++ s ≠ t := by
  intro heq
  exact h (by rw [← heq, List.getLast?_append_of_ne_nil _ hs])

theorem itemAssigns_key_ne_dtf (r : WeatherRecord) (items : List Str) :
    ∀ kv ∈ itemAssigns r items, kv.1 ≠ ("DateTime_Full".data) := by
  intro kv hkv
  simp only [itemAssigns, List.mem_flatMap] at hkv
  obtain ⟨item, _, hmem⟩ := hkv
  have hval : kv.1 = cleanItemName item ++ "_Value".data ∨
      kv.1 = cleanItemName item ++ "_QC".data ∨
      kv.1 = cleanItemName item ++ "_Unit".data := by
    cases hdv : dictGet r.data_values item <;> rw [hdv] at hmem <;>
      simp only [List.mem_cons, List.not_mem_nil, or_false] at hmem <;>
      rcases hmem with h | h | h <;> subst h <;> simp
  rcases hval with h | h | h <;> rw [h]
  · exact append_suffix_ne _ _ _ (by decide) (by decide)
  · exact append_suffix_ne _ _ _ (by decide) (by decide)
  · exact append_suffix_ne _ _ _ (by decide) (by decide)

theorem mem_hour_allColumns (records : List WeatherRecord) (scope : ScopeType)
    (h : scope = ScopeType.hourly ∨ scope = ScopeType.mixed) :
    (allColumns records scope).contains ("Hour".data) = true ∧
    (allColumns records scope).contains ("DateTime_Full".data) = true := by
  constructor <;>
  · rw [List.contains, List.elem_iff]
    apply List.mem_append_left
    rcases h with h | h <;> subst h <;> decide

theorem buildRow_dateTimeFull (pname ptype : Json) (r : WeatherRecord)
    (allCols : List Str) (items : List Str) (row : List (Str × Json))
    (hH : allCols.contains ("Hour".data) = true)
    (hF : allCols.contains ("DateTime_Full".data) = true)
    (hrow : buildRow pname ptype r allCols items = some row) :
    dictGet row ("DateTime_Full".data) =
      some (dateTimeFullCell r.date (pyOr r.hour (Json.str ("".data)))) := by
  unfold buildRow at hrow
  cases hc : dateTimeObjectCell r.date with
  | none => rw [hc] at hrow; simp at hrow
  | some dto =>
      rw [hc] at hrow
      simp only [hH, hF, if_true, Option.some.injEq] at hrow
      subst hrow
      rw [dictGet_applyAssigns_of_ne _ _ _ (itemAssigns_key_ne_dtf r items),
        dictGet_dictSet_self]

/-! ## Sample data used by witnesses and counterexamples -/

/-- A simple data value, as it appears in API payloads. -/
def sampleDv : DataValue :=
  ⟨Json.str ("1".data), Json.str (" ".data), Json.str ("in".data)⟩

/-- Data value stored under the item key `HlyTemp`. -/
def dvHlyTemp : DataValue :=
  ⟨Json.str ("11".data), Json.str (" ".data), Json.str ("C".data)⟩

/-- Data value stored under the item key `Temp`. -/
def dvTemp : DataValue :=
  ⟨Json.str ("22".data), Json.str ("M".data), Json.str ("F".data)⟩

/-- A record carrying both an untagged item `Temp` and its `Hly`-prefixed
sibling `HlyTemp`, whose cleaned column names collide. -/
def clashRecord : WeatherRecord :=
  ⟨Json.str ("2023-01-01".data), Json.str ("1".data), Json.null,
   Json.str ("english".data), Json.str ("".data), Json.str ("hourly".data),
   Json.str ("0100".data), [("HlyTemp".data, dvHlyTemp), ("Temp".data, dvTemp)]⟩

/-- A `WeatherData` holding only `clashRecord`. -/
def clashWd : WeatherData :=
  ⟨[⟨Json.str ("N".data), Json.str ("station".data), Json.str ("O".data),
     [clashRecord]⟩]⟩

/-! ## C1 -/

/-- C1: for every parsed JSON object in which the top-level `Data` key is
missing, or `Data` is present as an object lacking the `Providers` key,
`parse_data_response` returns a `WeatherData` with an empty provider
sequence and raises no exception (the result is `some`, never `none`). -/
theorem C1_mapper_missing_keys_empty (data : List (Str × Json))
    (h : dictGet data ("Data".data) = none ∨
      ∃ o, dictGet data ("Data".data) = some (Json.obj o) ∧
           dictGet o ("Providers".data) = none) :
    parse_data_response data = some { providers := [] } := by
  rcases h with h | ⟨o, h1, h2⟩
  · unfold parse_data_response
    rw [h]
  · unfold parse_data_response
    rw [h1]
    simp [h2]

/-- Witness for C1 at a concrete payload with no `Data` key. -/
theorem C1_witness :
    (dictGet [(("X".data : Str), Json.null)] ("Data".data) = none) ∧
    parse_data_response [(("X".data : Str), Json.null)] = some { providers := [] } :=
  ⟨by decide, C1_mapper_missing_keys_empty _ (Or.inl (by decide))⟩

/-! ## C4 -/

/-- C4: for every `WeatherData` whose flattened record list is empty,
`export_to_csv` fails with the `CimisDataError`-kind error before
producing any file, and that error kind is distinct from an I/O failure. -/
theorem C4_export_empty_raises (wd : WeatherData) (separate : Bool)
    (h : wd.get_all_records = []) :
    export_to_csv wd separate = Except.error ExportErr.noData ∧
    ExportErr.noData ≠ ExportErr.ioFailure := by
  refine ⟨?_, by decide⟩
  unfold export_to_csv
  rw [h]
  rfl

/-- Witness for C4 at the empty `WeatherData`. -/
theorem C4_witness :
    (WeatherData.get_all_records ⟨[]⟩ = []) ∧
    (export_to_csv ⟨[]⟩ true = Except.error ExportErr.noData ∧
      ExportErr.noData ≠ ExportErr.ioFailure) :=
  ⟨by decide, C4_export_empty_raises ⟨[]⟩ true (by decide)⟩

/-! ## C8 -/

/-- A record object carrying an `Hour` key but no `Scope` key. -/
def hourOnlyRecordDict : List (Str × Json) :=
  [("Hour".data, Json.str ("0100".data))]

/-- C8 counterexample: the record parsed from an object with an `Hour` key
and no `Scope` key has a present hour but scope `daily`, refuting
`hour present iff scope == hourly`. -/
theorem C8_counterexample :
    ¬(((parseRecord hourOnlyRecordDict).hour ≠ Json.null) ↔
      (parseRecord hourOnlyRecordDict).scope = Json.str ("hourly".data)) := by
  decide

/-- C8 amended: the hour of a mapped record is present exactly when the
input record object carries an `Hour` key with a non-null value — this is
independent of the record's scope. -/
theorem C8_amended_hour_from_input (rd : List (Str × Json)) :
    (parseRecord rd).hour ≠ Json.null ↔
      ∃ v, dictGet rd ("Hour".data) = some v ∧ v ≠ Json.null := by
  show pyGet rd ("Hour".data) ≠ Json.null ↔ _
  unfold pyGet
  cases h : dictGet rd ("Hour".data) <;> simp [h]

/-! ## C9 -/

/-- C9: with items `Temp` and `HlyTemp` retained in the same hourly file,
the `Hly`-stripping maps both to the cleaned name `Temp`; the header
carries the triple `Temp_Value`, `Temp_QC`, `Temp_Unit` twice, and in the
data row the values of the lexicographically later original key (`Temp`)
overwrite those of the earlier one (`HlyTemp`). -/
theorem C9_clean_name_collision :
    cleanItemName ("HlyTemp".data) = cleanItemName ("Temp".data) ∧
    lexLt ("HlyTemp".data) ("Temp".data) = true ∧
    (exportRecordsToCsv clashWd [clashRecord] ScopeType.hourly).map
        (fun out => out.header.count ("Temp_Value".data)) = some 2 ∧
    (exportRecordsToCsv clashWd [clashRecord] ScopeType.hourly).map
        (fun out => out.header.count ("Temp_QC".data)) = some 2 ∧
    (exportRecordsToCsv clashWd [clashRecord] ScopeType.hourly).map
        (fun out => out.header.count ("Temp_Unit".data)) = some 2 ∧
    (exportRecordsToCsv clashWd [clashRecord] ScopeType.hourly).map
        (fun out => out.rows.map (fun row =>
          (dictGet row ("Temp_Value".data), dictGet row ("Temp_QC".data))))
      = some [(some (Json.str ("22".data)), some (Json.str ("M".data)))] ∧
    (exportRecordsToCsv clashWd [clashRecord] ScopeType.hourly).map
        (fun out => out.rows.map (fun row => dictGet row ("Temp_Unit".data)))
      = some [some (Json.str ("F".data))] :=
  ⟨by decide, by decide, by decide, by decide, by decide, by decide, by decide⟩

/-! ## C2 -/

theorem dictGet_foldl_dvStep_not_mem (rd : List (Str × Json))
    (acc : List (Str × DataValue)) (K : Str) (h : ∀ kv ∈ rd, kv.1 ≠ K) :
    dictGet (rd.foldl dvStep acc) K = dictGet acc K := by
  induction rd generalizing acc with
  | nil => rfl
  | cons kv tl ih =>
      have hk : kv.1 ≠ K := h kv (by simp)
      have htl : ∀ x ∈ tl, x.1 ≠ K := fun x hx => h x (by simp [hx])
      show dictGet (tl.foldl dvStep (dvStep acc kv)) K = dictGet acc K
      rw [ih _ htl]
      unfold dvStep
      cases kv.2 with
      | obj o =>
          by_cases hv : hasKey o ("Value".data) = true
          · simp only [hv, if_true]
            exact dictGet_dictSet_ne _ _ _ _ hk
          · simp [hv]
      | null => rfl
      | str s => rfl
      | arr l => rfl

theorem dictGet_foldl_dvStep (rd : List (Str × Json))
    (acc : List (Str × DataValue)) (K : Str)
    (hnd : (rd.map Prod.fst).Nodup) :
    dictGet (rd.foldl dvStep acc) K =
      match dictGet rd K with
      | some (Json.obj o) =>
          if hasKey o ("Value".data) then some (mkDataValue o) else dictGet acc K
      | some _ => dictGet acc K
      | none => dictGet acc K := by
  induction rd generalizing acc with
  | nil => rfl
  | cons kv tl ih =>
      obtain ⟨k, v⟩ := kv
      simp only [List.map_cons, List.nodup_cons] at hnd
      obtain ⟨hknot, hndtl⟩ := hnd
      by_cases hk : k = K
      · subst hk
        have hnotin : ∀ x ∈ tl, x.1 ≠ k := by
          intro x hx heq
          exact hknot (heq ▸ List.mem_map_of_mem Prod.fst hx)
        show dictGet (tl.foldl dvStep (dvStep acc (k, v))) k = _
        rw [dictGet_foldl_dvStep_not_mem tl _ k hnotin]
        have hget : dictGet ((k, v) :: tl) k = some v := by simp [dictGet]
        rw [hget]
        unfold dvStep
        cases v with
        | obj o =>
            by_cases hv : hasKey o ("Value".data) = true
            · simp only [hv, if_true]
              exact dictGet_dictSet_self _ _ _
            · simp [hv]
        | null => rfl
        | str s => rfl
        | arr l => rfl
      · have hget : dictGet ((k, v) :: tl) K = dictGet tl K := by
          simp [dictGet, hk]
        show dictGet (tl.foldl dvStep (dvStep acc (k, v))) K = _
        rw [ih _ hndtl, hget]
        have hacc : dictGet (dvStep acc (k, v)) K = dictGet acc K := by
          unfold dvStep
          cases v with
          | obj o =>
              by_cases hv : hasKey o ("Value".data) = true
              · simp only [hv, if_true]
                exact dictGet_dictSet_ne _ _ _ _ hk
              · simp [hv]
          | null => rfl
          | str s => rfl
          | arr l => rfl
        rw [hacc]

/-- C2: for every record object with distinct keys (as Python dicts have),
a key `K` is mapped into the record's `data_values` exactly when its value
is an object containing a `Value` key, in which case the stored
`DataValue` is `mkDataValue` of that object — `Value` as the value, `Qc`
defaulting to a single space, `Unit` defaulting to the empty string; an
object lacking `Value`, or a non-object value, is never mapped. -/
theorem C2_mapper_data_items (rd : List (Str × Json)) (K : Str)
    (hnd : (rd.map Prod.fst).Nodup) :
    dictGet (parseRecord rd).data_values K =
      match dictGet rd K with
      | some (Json.obj o) =>
          if hasKey o ("Value".data) then some (mkDataValue o) else none
      | _ => none := by
  show dictGet (buildDataValues rd) K = _
  unfold buildDataValues
  rw [dictGet_foldl_dvStep rd [] K hnd]
  cases h : dictGet rd K with
  | none => rfl
  | some v => cases v <;> rfl

/-- A record object carrying a true data item, a metadata object without a
`Value` key, and plain string fields. -/
def sampleRecordDict : List (Str × Json) :=
  [("Date".data, Json.str ("2023-01-01".data)),
   ("Scope".data, Json.str ("daily".data)),
   ("day-eto".data, Json.obj
     [("Value".data, Json.str ("0.12".data)),
      ("Qc".data, Json.str (" ".data)),
      ("Unit".data, Json.str ("in".data))]),
   ("Meta".data, Json.obj [("Note".data, Json.str ("x".data))])]

/-- Witness for C2 at `sampleRecordDict`: the data item is mapped with its
extracted fields, the metadata object is not. -/
theorem C2_witness :
    ((sampleRecordDict.map Prod.fst).Nodup) ∧
    dictGet (parseRecord sampleRecordDict).data_values ("day-eto".data)
      = some ⟨Json.str ("0.12".data), Json.str (" ".data), Json.str ("in".data)⟩ ∧
    dictGet (parseRecord sampleRecordDict).data_values ("Meta".data) = none :=
  ⟨by decide,
   by rw [C2_mapper_data_items sampleRecordDict ("day-eto".data) (by decide)]; decide,
   by rw [C2_mapper_data_items sampleRecordDict ("Meta".data) (by decide)]; decide⟩

/-! ## C3 -/

/-- The data-item column layout as the specification sentence describes
it: triples ordered by the lexicographically sorted CLEANED item keys
(sorting applied after stripping the `Hly` token).  Compared against
`dataColumns`, which is what the code computes. -/
def specCleanSortedDataColumns (records : List WeatherRecord) (scope : ScopeType) :
    List Str :=
  (List.insertionSort (fun a b => lexLe a b = true)
      ((filteredDataItems records scope).map cleanItemName)).flatMap
    (fun c => [c ++ "_Value".data, c ++ "_QC".data, c ++ "_Unit".data])

/-- A record carrying the untagged item `Bar` and the `Hly`-tagged item
`HlyAir`: the uncleaned sort puts `Bar` before `HlyAir`, the cleaned sort
puts `Air` before `Bar`. -/
def barHlyAirRecord : WeatherRecord :=
  ⟨Json.str ("2023-01-01".data), Json.str ("1".data), Json.null,
   Json.str ("english".data), Json.str ("".data), Json.str ("hourly".data),
   Json.str ("0100".data), [("Bar".data, sampleDv), ("HlyAir".data, sampleDv)]⟩

/-- C3 counterexample: at the record set carrying `Bar` and `HlyAir` in
hourly mode, the code emits the `Bar` triple before the `Air` triple
(sorting the uncleaned keys), while ordering by sorted cleaned keys as the
claim states would put `Air` first.  The emitted columns are not in
cleaned-key order. -/
theorem C3_counterexample :
    dataColumns [barHlyAirRecord] ScopeType.hourly =
      ["Bar_Value".data, "Bar_QC".data, "Bar_Unit".data,
       "Air_Value".data, "Air_QC".data, "Air_Unit".data] ∧
    specCleanSortedDataColumns [barHlyAirRecord] ScopeType.hourly =
      ["Air_Value".data, "Air_QC".data, "Air_Unit".data,
       "Bar_Value".data, "Bar_QC".data, "Bar_Unit".data] ∧
    dataColumns [barHlyAirRecord] ScopeType.hourly ≠
      specCleanSortedDataColumns [barHlyAirRecord] ScopeType.hourly :=
  ⟨by decide, by decide, by decide⟩

/-- C3 amended: for every record set and mode, the emitted data-item
column triples appear in the order of the lexicographically sorted
ORIGINAL (uncleaned) retained item keys — the `Hly` stripping is applied
to the names only after sorting: the emitted columns are the triples of
some sorted permutation of the retained key set. -/
theorem C3_amended_sorted_by_original_key (records : List WeatherRecord)
    (scope : ScopeType) :
    ∃ ks : List Str,
      ks.Perm (filteredDataItems records scope) ∧
      List.Sorted (fun a b => lexLe a b = true) ks ∧
      dataColumns records scope = ks.flatMap itemColumnTriple :=
  ⟨sortedDataItems records scope,
   List.perm_insertionSort _ _,
   List.sorted_insertionSort _ _,
   rfl⟩

/-! ## C6 -/

/-- C6: for every record set, every item retained in mixed mode is
retained in daily mode or in hourly mode (daily ∪ hourly ⊇ mixed), and
every untagged item (neither `Day` nor `Hly` prefix) present in the
record set is retained in both daily and hourly mode. -/
theorem C6_mode_partition (records : List WeatherRecord) (item : Str) :
    (item ∈ filteredDataItems records ScopeType.mixed →
      item ∈ filteredDataItems records ScopeType.daily ∨
      item ∈ filteredDataItems records ScopeType.hourly) ∧
    ((item ∈ allDataItems records ∧ startsWithStr item ("Day".data) = false ∧
        startsWithStr item ("Hly".data) = false) →
      item ∈ filteredDataItems records ScopeType.daily ∧
      item ∈ filteredDataItems records ScopeType.hourly) := by
  constructor
  · intro h
    rw [filteredDataItems, List.mem_filter] at h
    obtain ⟨hmem, _⟩ := h
    by_cases hd : startsWithStr item ("Day".data) = true
    · left
      rw [filteredDataItems, List.mem_filter]
      exact ⟨hmem, by simp [itemKeep, hd]⟩
    · by_cases hh : startsWithStr item ("Hly".data) = true
      · right
        rw [filteredDataItems, List.mem_filter]
        exact ⟨hmem, by simp [itemKeep, hh]⟩
      · left
        rw [filteredDataItems, List.mem_filter]
        simp only [Bool.not_eq_true] at hd hh
        exact ⟨hmem, by simp [itemKeep, hd, hh]⟩
  · rintro ⟨hmem, hd, hh⟩
    constructor <;>
    · rw [filteredDataItems, List.mem_filter]
      exact ⟨hmem, by simp [itemKeep, hd, hh]⟩

/-- Witness for C6 at the record set `[clashRecord]` and the untagged item
`Temp`: it is retained in mixed mode, hence in daily or hourly mode. -/
theorem C6_witness :
    ("Temp".data ∈ filteredDataItems [clashRecord] ScopeType.mixed) ∧
    ("Temp".data ∈ filteredDataItems [clashRecord] ScopeType.daily ∨
     "Temp".data ∈ filteredDataItems [clashRecord] ScopeType.hourly) :=
  ⟨by decide, (C6_mode_partition [clashRecord] ("Temp".data)).1 (by decide)⟩

/-! ## C7 -/

/-- The record count of the input payload as the specification states it:
the sum of the lengths of the `Records` arrays across all provider
objects under `Data.Providers` (absent pieces contribute zero). -/
def recordsCountIn (data : List (Str × Json)) : Nat :=
  match dictGet data ("Data".data) with
  | some (Json.obj o) =>
      match dictGet o ("Providers".data) with
      | some (Json.arr ps) => (ps.map provRecordCount).sum
      | _ => 0
  | _ => 0
where
  provRecordCount : Json → Nat
    | Json.obj pd =>
        match dictGet pd ("Records".data) with
        | some (Json.arr rs) => rs.length
        | _ => 0
    | _ => 0

theorem parseProviderJ_records_length (p : Json) (pr : WeatherProvider)
    (h : parseProviderJ p = some pr) :
    pr.records.length = recordsCountIn.provRecordCount p := by
  cases p with
  | null => exact absurd h (by simp [parseProviderJ])
  | str s => exact absurd h (by simp [parseProviderJ])
  | arr l => exact absurd h (by simp [parseProviderJ])
  | obj pd =>
      unfold parseProviderJ at h
      unfold recordsCountIn.provRecordCount
      cases hr : dictGet pd ("Records".data) with
      | none =>
          simp only [hr, Option.some.injEq] at h
          simp only [hr]
          rw [← h]
          rfl
      | some v =>
          cases v with
          | null => simp [hr] at h
          | str s =>
              by_cases hs : s.isEmpty = true
              · simp only [hr, hs, if_true, Option.some.injEq] at h
                simp only [hr]
                rw [← h]
                rfl
              · simp [hr, hs] at h
          | obj o =>
              by_cases hs : o.isEmpty = true
              · simp only [hr, hs, if_true, Option.some.injEq] at h
                simp only [hr]
                rw [← h]
                rfl
              · simp [hr, hs] at h
          | arr rs =>
              simp only [hr] at h
              simp only [hr]
              cases hm : optMap parseRecordJ rs with
              | none => simp [hm] at h
              | some recs =>
                  rw [hm] at h
                  simp only [Option.map_some', Option.some.injEq] at h
                  rw [← h]
                  exact optMap_length _ _ _ hm

theorem optMap_parseProviderJ_counts (ps : List Json) (prs : List WeatherProvider)
    (h : optMap parseProviderJ ps = some prs) :
    prs.map (fun pr => pr.records.length) = ps.map recordsCountIn.provRecordCount := by
  induction ps generalizing prs with
  | nil =>
      simp only [optMap, Option.some.injEq] at h
      subst h
      rfl
  | cons p tl ih =>
      simp only [optMap] at h
      cases hp : parseProviderJ p with
      | none => simp [hp] at h
      | some pr =>
          rw [hp] at h
          cases hm : optMap parseProviderJ tl with
          | none => simp [hm] at h
          | some prs2 =>
              rw [hm] at h
              simp only [Option.map_some', Option.some.injEq] at h
              subst h
              simp only [List.map_cons]
              rw [ih prs2 hm, parseProviderJ_records_length p pr hp]

/-- C7: whenever the Mapper parses a payload without raising, the length
of the flattened record list of its output (`get_all_records`) equals the
sum of the lengths of the `Records` arrays across all provider objects of
the input. -/
theorem C7_record_count_roundtrip (data : List (Str × Json)) (wd : WeatherData)
    (h : parse_data_response data = some wd) :
    wd.get_all_records.length = recordsCountIn data := by
  unfold parse_data_response at h
  unfold recordsCountIn
  cases hd : dictGet data ("Data".data) with
  | none =>
      simp only [hd, Option.some.injEq] at h
      simp only [hd]
      rw [← h]
      rfl
  | some v =>
      cases v with
      | null => simp [hd] at h
      | str s =>
          by_cases hs : ("Providers".data) <:+: s
          · simp [hd, hs] at h
          · simp only [hd, hs, if_false, Option.some.injEq] at h
            simp only [hd]
            rw [← h]
            rfl
      | arr l =>
          by_cases hs : (l.any fun j => Json.beq j (Json.str ("Providers".data))) = true
          · simp [hd, hs] at h
          · simp only [hd, hs, Bool.false_eq_true, if_false, Option.some.injEq] at h
            simp only [hd]
            rw [← h]
            rfl
      | obj o =>
          cases hp : dictGet o ("Providers".data) with
          | none =>
              simp only [hd, hp, Option.some.injEq] at h
              simp only [hd, hp]
              rw [← h]
              rfl
          | some pv =>
              cases pv with
              | null => simp [hd, hp] at h
              | str s => simp [hd, hp] at h
              | obj o2 => simp [hd, hp] at h
              | arr ps =>
                  simp only [hd, hp] at h
                  simp only [hd, hp]
                  cases hm : optMap parseProviderJ ps with
                  | none => simp [hm] at h
                  | some prs =>
                      rw [hm] at h
                      simp only [Option.map_some', Option.some.injEq] at h
                      rw [← h]
                      show (prs.flatMap (fun pr => pr.records)).length = _
                      rw [List.length_flatMap]
                      simp only [Function.comp_def]
                      rw [optMap_parseProviderJ_counts ps prs hm]

/-- A payload with two providers: one with two records, one without a
`Records` key. -/
def twoProviderPayload : List (Str × Json) :=
  [("Data".data, Json.obj
    [("Providers".data, Json.arr
      [Json.obj [("Name".data, Json.str ("A".data)),
                 ("Records".data, Json.arr [Json.obj [], Json.obj []])],
       Json.obj [("Name".data, Json.str ("B".data))]])])]

/-- The parse of `twoProviderPayload`. -/
def twoProviderWd : WeatherData :=
  ⟨[⟨Json.str ("A".data), Json.str ("".data), Json.str ("".data),
     [parseRecord [], parseRecord []]⟩,
    ⟨Json.str ("B".data), Json.str ("".data), Json.str ("".data), []⟩]⟩

/-- Witness for C7 at `twoProviderPayload`. -/
theorem C7_witness :
    parse_data_response twoProviderPayload = some twoProviderWd ∧
    twoProviderWd.get_all_records.length = recordsCountIn twoProviderPayload :=
  ⟨by decide, C7_record_count_roundtrip twoProviderPayload twoProviderWd (by decide)⟩

/-! ## C5 -/

/-- An hourly record whose `Hour` field is the malformed token `xx`. -/
def badHourRecord : WeatherRecord := parseRecord
  [("Date".data, Json.str ("2023-01-01".data)),
   ("Hour".data, Json.str ("xx".data)),
   ("Scope".data, Json.str ("hourly".data))]

/-- A `WeatherData` holding only `badHourRecord`. -/
def badHourWd : WeatherData :=
  ⟨[⟨Json.str ("N".data), Json.str ("station".data), Json.str ("O".data),
     [badHourRecord]⟩]⟩

/-- C5 counterexample: for the record with `Date="2023-01-01"` and the
malformed `Hour="xx"` projected in hourly mode, the `DateTime_Full` cell
is the fallback string `"2023-01-01 xx"`, not the empty string the claim
requires. -/
theorem C5_counterexample :
    (exportRecordsToCsv badHourWd [badHourRecord] ScopeType.hourly).map
        (fun out => out.rows.map (fun row => dictGet row ("DateTime_Full".data)))
      = some [some (Json.str ("2023-01-01 xx".data))] ∧
    Json.str ("2023-01-01 xx".data) ≠ Json.str ("".data) :=
  ⟨by decide, by decide⟩

/-- C5 amended: in hourly or mixed mode the `DateTime_Full` cell of every
produced row is the total function `dateTimeFullCell` of the record's date
and hour — the computation catches its own `ValueError`/`TypeError` and
never raises.  When the hour is absent the cell is the empty string; when
the date parses and the hour is the well-formed token `0130` the cell is
the ISO-8601 combination ending in `T01:30:00`; a malformed hour instead
yields the fallback `"date hour"` string of `dateTimeFullCell`. -/
theorem C5_amended (pname ptype : Json) (r : WeatherRecord)
    (records : List WeatherRecord) (scope : ScopeType)
    (hscope : scope = ScopeType.hourly ∨ scope = ScopeType.mixed)
    (row : List (Str × Json))
    (hrow : buildRow pname ptype r (allColumns records scope)
        (sortedDataItems records scope) = some row) :
    dictGet row ("DateTime_Full".data) =
      some (dateTimeFullCell r.date (pyOr r.hour (Json.str ("".data)))) ∧
    (r.hour = Json.null →
      dateTimeFullCell r.date (pyOr r.hour (Json.str ("".data)))
        = Json.str ("".data)) ∧
    (∀ s ymd, r.date = Json.str s → parseDate s = some ymd →
      r.hour = Json.str ("0130".data) →
      dateTimeFullCell r.date (pyOr r.hour (Json.str ("".data)))
        = Json.str (isoWithTime ymd 1 30)) := by
  obtain ⟨hH, hF⟩ := mem_hour_allColumns records scope hscope
  refine ⟨buildRow_dateTimeFull _ _ _ _ _ _ hH hF hrow, ?_, ?_⟩
  · intro hh
    rw [hh]
    simp [dateTimeFullCell, pyOr, truthy]
  · intro s ymd hs hymd hh
    rw [hs, hh]
    have hp : pyOr (Json.str ("0130".data)) (Json.str ("".data))
        = Json.str ("0130".data) := by decide
    rw [hp]
    have hsne : s ≠ [] := by
      intro he
      rw [he] at hymd
      rw [show parseDate ([] : Str) = none from by decide] at hymd
      exact absurd hymd (by simp)
    have hst : truthy (Json.str s) = true := by
      cases s with
      | nil => exact absurd rfl hsne
      | cons c tl => rfl
    unfold dateTimeFullCell
    simp only [hst, Bool.true_and]
    have ht : truthy (Json.str ("0130".data)) = true := by decide
    simp only [ht, if_true]
    simp only [hymd]
    have e1 : pyInt (List.take 2 (zfill 4 (pyStr (Json.str ("0130".data)))))
        = some 1 := by decide
    have e2 : (if List.length (zfill 4 (pyStr (Json.str ("0130".data)))) > 2 then
        pyInt (List.drop 2 (zfill 4 (pyStr (Json.str ("0130".data))))) else some 0)
        = some 30 := by decide
    simp only [e1, e2]
    norm_num
    rfl

/-- An hourly record with the well-formed hour token `0130`. -/
def goodHourRecord : WeatherRecord := parseRecord
  [("Date".data, Json.str ("2023-01-01".data)),
   ("Hour".data, Json.str ("0130".data)),
   ("Scope".data, Json.str ("hourly".data))]

/-- The row built for `goodHourRecord` in hourly mode. -/
def goodHourRow : List (Str × Json) :=
  (buildRow (Json.str ("N".data)) (Json.str ("station".data)) goodHourRecord
    (allColumns [goodHourRecord] ScopeType.hourly)
    (sortedDataItems [goodHourRecord] ScopeType.hourly)).getD []

/-- Witness for C5 at `goodHourRecord` in hourly mode. -/
theorem C5_witness :
    (buildRow (Json.str ("N".data)) (Json.str ("station".data)) goodHourRecord
        (allColumns [goodHourRecord] ScopeType.hourly)
        (sortedDataItems [goodHourRecord] ScopeType.hourly) = some goodHourRow) ∧
    (dictGet goodHourRow ("DateTime_Full".data) =
        some (dateTimeFullCell goodHourRecord.date
          (pyOr goodHourRecord.hour (Json.str ("".data)))) ∧
      (goodHourRecord.hour = Json.null →
        dateTimeFullCell goodHourRecord.date
          (pyOr goodHourRecord.hour (Json.str ("".data))) = Json.str ("".data)) ∧
      (∀ s ymd, goodHourRecord.date = Json.str s → parseDate s = some ymd →
        goodHourRecord.hour = Json.str ("0130".data) →
        dateTimeFullCell goodHourRecord.date
          (pyOr goodHourRecord.hour (Json.str ("".data)))
          = Json.str (isoWithTime ymd 1 30))) :=
  ⟨by decide,
   C5_amended (Json.str ("N".data)) (Json.str ("station".data)) goodHourRecord
     [goodHourRecord] ScopeType.hourly (Or.inl rfl) goodHourRow (by decide)⟩

/-- Witness for C8 (amended) at `hourOnlyRecordDict`. -/
theorem C8_witness :
    (parseRecord hourOnlyRecordDict).hour ≠ Json.null ↔
      ∃ v, dictGet hourOnlyRecordDict ("Hour".data) = some v ∧ v ≠ Json.null :=
  C8_amended_hour_from_input hourOnlyRecordDict

/-! ## C10 -/

theorem isSome_map_eq {α β : Type} (f : α → β) (o : Option α) :
    (o.map f).isSome = o.isSome := by cases o <;> rfl

theorem exportRecordsToCsv_isSome (wd : WeatherData) (records : List WeatherRecord)
    (scope : ScopeType)
    (hdates : ∀ q ∈ wd.get_all_records, dateOk q.date = true) :
    (exportRecordsToCsv wd records scope).isSome := by
  unfold exportRecordsToCsv
  simp only [isSome_map_eq]
  apply optMap_isSome
  intro pr hpr
  simp only [exportIncluded, List.mem_flatMap, List.mem_map] at hpr
  obtain ⟨p, hp, rec, hrecf, hpr2⟩ := hpr
  rw [List.mem_filter] at hrecf
  have hmem : rec ∈ wd.get_all_records :=
    List.mem_flatMap.mpr ⟨p, hp, hrecf.1⟩
  rw [← hpr2]
  exact buildRow_isSome _ _ _ _ _ (hdates _ hmem)

/-- C10: when `export_to_csv` runs with scope separation on a
`WeatherData` that has at least one record of scope `daily` or `hourly`
(and dates on which row formatting cannot raise), every record whose
scope string is neither `daily` nor `hourly` is silently omitted: the
export succeeds with no error, and the record is not among the records
emitted into any produced file (the daily-filtered and hourly-filtered
sets). -/
theorem C10_nonstandard_scope_silently_omitted (wd : WeatherData)
    (r : WeatherRecord) (hr : r ∈ wd.get_all_records)
    (hnd : r.scope ≠ Json.str ("daily".data))
    (hnh : r.scope ≠ Json.str ("hourly".data))
    (hsome : ∃ r0 ∈ wd.get_all_records,
        r0.scope = Json.str ("daily".data) ∨ r0.scope = Json.str ("hourly".data))
    (hdates : ∀ q ∈ wd.get_all_records, dateOk q.date = true) :
    (∃ outs, export_to_csv wd true = Except.ok outs) ∧
    (∀ recs,
      (recs = wd.get_all_records.filter
          (fun q => Json.beq q.scope (Json.str ("daily".data))) ∨
       recs = wd.get_all_records.filter
          (fun q => Json.beq q.scope (Json.str ("hourly".data)))) →
      ¬ r ∈ (exportIncluded wd recs).map Prod.snd) := by
  constructor
  · obtain ⟨r0, hr0mem, hr0⟩ := hsome
    have hne : wd.get_all_records ≠ [] := by
      intro he
      rw [he] at hr0mem
      exact absurd hr0mem (List.not_mem_nil r0)
    have hie : wd.get_all_records.isEmpty = false := by
      cases hl : wd.get_all_records with
      | nil => exact absurd hl hne
      | cons a tl => rfl
    unfold export_to_csv
    simp only [hie, Bool.false_eq_true, if_false, if_true]
    by_cases hd : (wd.get_all_records.filter
        (fun q => Json.beq q.scope (Json.str ("daily".data)))).isEmpty = true
    <;> by_cases hh : (wd.get_all_records.filter
        (fun q => Json.beq q.scope (Json.str ("hourly".data)))).isEmpty = true
    · -- both empty: contradicts hsome
      exfalso
      rcases hr0 with h0 | h0
      · have : r0 ∈ wd.get_all_records.filter
            (fun q => Json.beq q.scope (Json.str ("daily".data))) :=
          List.mem_filter.mpr ⟨hr0mem, (Json.beq_iff _ _).mpr h0⟩
        rw [List.isEmpty_iff.mp hd] at this
        exact absurd this (List.not_mem_nil r0)
      · have : r0 ∈ wd.get_all_records.filter
            (fun q => Json.beq q.scope (Json.str ("hourly".data))) :=
          List.mem_filter.mpr ⟨hr0mem, (Json.beq_iff _ _).mpr h0⟩
        rw [List.isEmpty_iff.mp hh] at this
        exact absurd this (List.not_mem_nil r0)
    · -- daily empty, hourly nonempty
      have hH := exportRecordsToCsv_isSome wd
        (wd.get_all_records.filter
          (fun q => Json.beq q.scope (Json.str ("hourly".data)))) ScopeType.hourly hdates
      rw [Option.isSome_iff_exists] at hH
      obtain ⟨outH, hOutH⟩ := hH
      simp only [hd, hh, hOutH, Bool.not_true, Bool.not_false, Bool.false_and,
        Bool.true_and, Bool.false_eq_true, if_false, if_true]
      exact ⟨[outH], rfl⟩
    · -- daily nonempty, hourly empty
      have hD := exportRecordsToCsv_isSome wd
        (wd.get_all_records.filter
          (fun q => Json.beq q.scope (Json.str ("daily".data)))) ScopeType.daily hdates
      rw [Option.isSome_iff_exists] at hD
      obtain ⟨outD, hOutD⟩ := hD
      simp only [hd, hh, hOutD, Bool.not_true, Bool.not_false, Bool.false_and,
        Bool.and_false, Bool.true_and, Bool.false_eq_true, if_false, if_true]
      exact ⟨[outD], rfl⟩
    · -- both nonempty
      have hD := exportRecordsToCsv_isSome wd
        (wd.get_all_records.filter
          (fun q => Json.beq q.scope (Json.str ("daily".data)))) ScopeType.daily hdates
      have hH := exportRecordsToCsv_isSome wd
        (wd.get_all_records.filter
          (fun q => Json.beq q.scope (Json.str ("hourly".data)))) ScopeType.hourly hdates
      rw [Option.isSome_iff_exists] at hD hH
      obtain ⟨outD, hOutD⟩ := hD
      obtain ⟨outH, hOutH⟩ := hH
      simp only [hd, hh, hOutD, hOutH, Bool.not_false, Bool.true_and, if_true]
      exact ⟨[outD, outH], rfl⟩
  · intro recs hcase hmem
    rw [List.mem_map] at hmem
    obtain ⟨pr, hpr, hsnd⟩ := hmem
    simp only [exportIncluded, List.mem_flatMap, List.mem_map] at hpr
    obtain ⟨p, hp, rec, hrecf, hpr2⟩ := hpr
    rw [List.mem_filter] at hrecf
    have hrec : rec = r := by rw [← hsnd, ← hpr2]
    subst hrec
    have hin : rec ∈ recs := (recIn_iff _ _).mp hrecf.2
    rcases hcase with hc | hc
    · subst hc
      rw [List.mem_filter] at hin
      exact hnd ((Json.beq_iff _ _).mp hin.2)
    · subst hc
      rw [List.mem_filter] at hin
      exact hnh ((Json.beq_iff _ _).mp hin.2)

/-- A record whose scope string is neither `daily` nor `hourly`. -/
def monthlyRecord : WeatherRecord := parseRecord
  [("Date".data, Json.str ("2023-01-02".data)),
   ("Scope".data, Json.str ("monthly".data))]

/-- A record of scope `daily`. -/
def plainDailyRecord : WeatherRecord := parseRecord
  [("Date".data, Json.str ("2023-01-01".data)),
   ("Scope".data, Json.str ("daily".data))]

/-- A `WeatherData` mixing a daily record and a `monthly`-scope record. -/
def mixedScopeWd : WeatherData :=
  ⟨[⟨Json.str ("N".data), Json.str ("station".data), Json.str ("O".data),
     [plainDailyRecord, monthlyRecord]⟩]⟩

/-- Witness for C10 at `mixedScopeWd` and `monthlyRecord`. -/
theorem C10_witness :
    (monthlyRecord ∈ mixedScopeWd.get_all_records ∧
      monthlyRecord.scope ≠ Json.str ("daily".data) ∧
      monthlyRecord.scope ≠ Json.str ("hourly".data) ∧
      (∃ r0 ∈ mixedScopeWd.get_all_records,
        r0.scope = Json.str ("daily".data) ∨
        r0.scope = Json.str ("hourly".data)) ∧
      (∀ q ∈ mixedScopeWd.get_all_records, dateOk q.date = true)) ∧
    ((∃ outs, export_to_csv mixedScopeWd true = Except.ok outs) ∧
      (∀ recs,
        (recs = mixedScopeWd.get_all_records.filter
            (fun q => Json.beq q.scope (Json.str ("daily".data))) ∨
         recs = mixedScopeWd.get_all_records.filter
            (fun q => Json.beq q.scope (Json.str ("hourly".data)))) →
        ¬ monthlyRecord ∈ (exportIncluded mixedScopeWd recs).map Prod.snd)) :=
  ⟨⟨by decide, by decide, by decide, by decide, by decide⟩,
   C10_nonstandard_scope_silently_omitted mixedScopeWd monthlyRecord
     (by decide) (by decide) (by decide) (by decide) (by decide)⟩
